import Mathlib

/-!
Shallow embedding of `src/src/xml/writer/emitter.rs` from gnp/xml-rs:
the streaming XML emitter's state machine.

Conventions of the embedding:
- The byte sink never fails in the model; each emitter operation returns the
  bytes it wrote as a `String` alongside the updated `Emitter` state and the
  `EmitterResult` outcome.
- A Rust panic (`Option::unwrap` on `None`, reachable through
  `indent_stack.last().unwrap()` when the stack is empty) is modelled by the
  whole operation returning `none`; a normal return is `some`.
- `Vec<u8>` used as a stack (`push`/`pop`/`last` at the end) is represented by
  a `List Nat` whose head is the top of the stack.
- Short-circuit evaluation of Rust `&&` is preserved wherever it guards a
  potentially panicking accessor.
-/

namespace Xml

/-- Modelled from the spec: `common::XmlVersion` is not under `src/`; the spec
covers "XML 1.0/1.1" and the default declaration uses version "1.0", which is
how `Version10` displays. -/
inductive XmlVersion
  | Version10
  | Version11
deriving DecidableEq, Repr

/-- Display string of an `XmlVersion`, as interpolated by `write!` into the
document declaration. -/
def XmlVersion.displayStr : XmlVersion → String
  | .Version10 => "1.0"
  | .Version11 => "1.1"

/-- Modelled from the spec: `common::Name` is not under `src/`; the spec defines
a qualified name as a local part with an optional prefix, rendered as
`prefix:local` when the prefix is present, else `local`. The emitter only uses
its rendering `to_str_proper`. -/
structure Name where
  pfx : Option String
  local_name : String
deriving DecidableEq, Repr

/-- Rendering of a qualified name (`Name::to_str_proper` from `common`). -/
def Name.to_str_proper (n : Name) : String :=
  match n.pfx with
  | some p => p ++ ":" ++ n.local_name
  | none => n.local_name

/-- Modelled from the spec: `common::Attribute` is not under `src/`; a
qualified name plus a string value. The emitter in `src/` only forwards
attributes to the stub `emit_attributes`. -/
structure Attribute where
  name : Name
  value : String
deriving DecidableEq, Repr

/-- Modelled from the spec: `common::Namespace` is not under `src/`; a set of
prefix → URI bindings of one element. The emitter in `src/` only forwards it to
the stub `emit_namespace_attributes`. -/
abbrev Namespace := List (String × String)

/-- `EmitterErrorKind` from `emitter.rs` lines 11-16, verbatim: exactly these
four variants exist. -/
inductive EmitterErrorKind
  | IoError
  | DocumentStartAlreadyEmitted
  | UnexpectedEvent
  | InvalidWhitespaceEvent
deriving DecidableEq, Repr

/-- `EmitterError` from `emitter.rs` lines 18-22. The `cause` field holds the
underlying sink error; the modelled sink never fails, so it carries `Unit`. -/
structure EmitterError where
  kind : EmitterErrorKind
  message : String
  cause : Option Unit
deriving DecidableEq, Repr

/-- `error` constructor from `emitter.rs` lines 24-30. -/
def error (kind : EmitterErrorKind) (message : String) : EmitterError :=
  { kind := kind, message := message, cause := none }

/-- Modelled from the spec: `writer::config::EmitterConfig` is not under
`src/`; the spec's configuration table gives these options (the ones the
emitter code reads, plus `perform_indent`). -/
structure EmitterConfig where
  line_separator : String
  indent_string : String
  perform_indent : Bool
  write_document_declaration : Bool
deriving DecidableEq, Repr

/-- `Emitter` struct from `emitter.rs` lines 44-53. `nst` is the namespace
stack (a list of frames of prefix → URI bindings; `common::NamespaceStack` is
not under `src/` and the emitter code never touches it after construction).
`indent_stack` is the `Vec<u8>` of per-level flags, head = top. -/
structure Emitter where
  config : EmitterConfig
  nst : List (List (String × String))
  indent_level : Nat
  indent_stack : List Nat
  start_document_emitted : Bool
deriving DecidableEq, Repr

/-- `new` from `emitter.rs` lines 55-66: `NamespaceStack::empty()` holds no
frames and `indent_stack` is the empty vector. -/
def new (config : EmitterConfig) : Emitter :=
  { config := config
    nst := []
    indent_level := 0
    indent_stack := []
    start_document_emitted := false }

/-- Result of one emitter operation: the updated state, the bytes written to
the sink during the call (also in the error case), and the
`EmitterResult<()>` outcome; `none` models a panic. -/
abbrev EmitStep := Option (Emitter × String × Except EmitterError Unit)

def WROTE_NOTHING : Nat := 0
def WROTE_MARKUP : Nat := 1
def WROTE_TEXT : Nat := 2

/-- `wrote_text` (line 110): `*self.indent_stack.last().unwrap() & WROTE_TEXT > 0`;
`none` models the `unwrap` panic on an empty stack. -/
def wrote_text (s : Emitter) : Option Bool :=
  s.indent_stack.head?.map (fun f => decide (0 < (f &&& WROTE_TEXT)))

/-- `wrote_markup` (line 115): `*self.indent_stack.last().unwrap() & WROTE_MARKUP > 0`. -/
def wrote_markup (s : Emitter) : Option Bool :=
  s.indent_stack.head?.map (fun f => decide (0 < (f &&& WROTE_MARKUP)))

/-- `set_wrote_text` (line 120): `*self.indent_stack.mut_last().unwrap() = WROTE_TEXT`. -/
def set_wrote_text (s : Emitter) : Option Emitter :=
  match s.indent_stack with
  | [] => none
  | _ :: t => some { s with indent_stack := WROTE_TEXT :: t }

/-- `set_wrote_markup` (line 125): `*self.indent_stack.mut_last().unwrap() = WROTE_MARKUP`. -/
def set_wrote_markup (s : Emitter) : Option Emitter :=
  match s.indent_stack with
  | [] => none
  | _ :: t => some { s with indent_stack := WROTE_MARKUP :: t }

/-- `reset_state` (line 130): `*self.indent_stack.mut_last().unwrap() = WROTE_NOTHING`. -/
def reset_state (s : Emitter) : Option Emitter :=
  match s.indent_stack with
  | [] => none
  | _ :: t => some { s with indent_stack := WROTE_NOTHING :: t }

/-- `write_newline` (lines 134-140): writes `line_separator` then `level`
copies of `indent_string`; it does not change the emitter state, so the model
returns just the bytes written. -/
def write_newline (s : Emitter) (level : Nat) : String :=
  s.config.line_separator ++ String.join (List.replicate level s.config.indent_string)

/-- `after_markup` (line 152): `self.set_wrote_markup()`. -/
def after_markup (s : Emitter) : Option Emitter :=
  set_wrote_markup s

/-- `before_markup` (lines 142-150). `wrote_text()` is evaluated first, so an
empty indent stack panics here; `wrote_markup()` is only reached behind the
short-circuiting `||`, but under the same non-empty stack. -/
def before_markup (s : Emitter) : Option (Emitter × String) :=
  match wrote_text s, wrote_markup s with
  | some wt, some wm =>
    if ¬wt ∧ (0 < s.indent_level ∨ wm) then
      if 0 < s.indent_level ∧ 0 < s.config.indent_string.length then
        (after_markup s).map (fun s2 => (s2, write_newline s s.indent_level))
      else
        some (s, write_newline s s.indent_level)
    else
      some (s, "")
  | _, _ => none

/-- `before_start_element` (lines 156-160): `before_markup` then
`indent_stack.push(0)`. -/
def before_start_element (s : Emitter) : Option (Emitter × String) :=
  (before_markup s).map
    (fun p => ({ p.1 with indent_stack := 0 :: p.1.indent_stack }, p.2))

/-- `after_start_element` (lines 162-165): `after_markup` then
`indent_level += 1`. -/
def after_start_element (s : Emitter) : Option Emitter :=
  (after_markup s).map (fun s1 => { s1 with indent_level := s1.indent_level + 1 })

/-- `before_end_element` (lines 167-173). Rust `&&` short-circuits: with
`indent_level == 0` the accessors are never called, so no panic there. -/
def before_end_element (s : Emitter) : Option (Emitter × String) :=
  if 0 < s.indent_level then
    match wrote_markup s, wrote_text s with
    | some wm, some wt =>
      if wm ∧ ¬wt then
        some (s, write_newline s (s.indent_level - 1))
      else
        some (s, "")
    | _, _ => none
  else
    some (s, "")

/-- `after_end_element` (lines 175-181): conditional decrement and pop
(`Vec::pop` on an empty vector is a no-op), then `set_wrote_markup`. -/
def after_end_element (s : Emitter) : Option Emitter :=
  let s1 :=
    if 0 < s.indent_level then
      { s with indent_level := s.indent_level - 1, indent_stack := s.indent_stack.tail }
    else
      s
  set_wrote_markup s1

/-- `after_text` (lines 183-185): `self.set_wrote_text()`. -/
def after_text (s : Emitter) : Option Emitter :=
  set_wrote_text s

/-- The document-declaration body written by `emit_start_document`
(lines 193-201) for the given version, encoding and standalone flag. -/
def startDocumentBody (version : XmlVersion) (encoding : String)
    (standalone : Option Bool) : String :=
  "<?xml version=\"" ++ version.displayStr ++ "\" encoding=\"" ++ encoding ++ "\"" ++
    (match standalone with
     | some b => " standalone=\"" ++ (if b then "yes" else "no") ++ "\""
     | none => "") ++ "?>"

/-- `emit_start_document` (lines 187-202): reject a second start-document,
otherwise set the flag and write the declaration wrapped in
`before_markup` / `after_markup`. -/
def emit_start_document (s : Emitter) (version : XmlVersion) (encoding : String)
    (standalone : Option Bool) : EmitStep :=
  if s.start_document_emitted then
    some (s, "", Except.error
      (error EmitterErrorKind.DocumentStartAlreadyEmitted "Document start is already emitted"))
  else
    match before_markup { s with start_document_emitted := true } with
    | none => none
    | some (s1, out1) =>
      match after_markup s1 with
      | none => none
      | some s2 => some (s2, out1 ++ startDocumentBody version encoding standalone, Except.ok ())

/-- `check_document_started` (lines 204-210). -/
def check_document_started (s : Emitter) : EmitStep :=
  if ¬s.start_document_emitted ∧ s.config.write_document_declaration then
    emit_start_document s XmlVersion.Version10 "utf-8" none
  else
    some (s, "", Except.ok ())

/-- `emit_processing_instruction` (lines 212-224): `check_document_started`,
then the PI body wrapped in `before_markup` / `after_markup`. -/
def emit_processing_instruction (s : Emitter) (name : String)
    (data : Option String) : EmitStep :=
  match check_document_started s with
  | none => none
  | some (s1, out1, Except.error e) => some (s1, out1, Except.error e)
  | some (s1, out1, Except.ok _) =>
    match before_markup s1 with
    | none => none
    | some (s2, out2) =>
      match after_markup s2 with
      | none => none
      | some s3 =>
        some (s3, out1 ++ out2 ++ ("<?" ++ name ++
          (match data with | some d => " " ++ d | none => "") ++ "?>"), Except.ok ())

/-- `emit_namespace_attributes` (lines 258-260): a stub, writes nothing and
returns `Ok(())`. -/
def emit_namespace_attributes (s : Emitter) (_nsp : Namespace) : EmitStep :=
  some (s, "", Except.ok ())

/-- `emit_attributes` (lines 262-264): a stub, writes nothing and returns
`Ok(())`. -/
def emit_attributes (s : Emitter) (_attributes : List Attribute) : EmitStep :=
  some (s, "", Except.ok ())

/-- `emit_start_element_initial` (lines 226-236): `check_document_started`,
`before_start_element`, write `<` + qualified name, then the namespace and
attribute stubs. -/
def emit_start_element_initial (s : Emitter) (name : Name)
    (attributes : List Attribute) (nsp : Namespace) : EmitStep :=
  match check_document_started s with
  | none => none
  | some (s1, out1, Except.error e) => some (s1, out1, Except.error e)
  | some (s1, out1, Except.ok _) =>
    match before_start_element s1 with
    | none => none
    | some (s2, out2) =>
      match emit_namespace_attributes s2 nsp with
      | none => none
      | some (s3, out4, Except.error e) =>
        some (s3, out1 ++ out2 ++ ("<" ++ name.to_str_proper) ++ out4, Except.error e)
      | some (s3, out4, Except.ok _) =>
        match emit_attributes s3 attributes with
        | none => none
        | some (s4, out5, r) =>
          some (s4, out1 ++ out2 ++ ("<" ++ name.to_str_proper) ++ out4 ++ out5, r)

/-- `emit_empty_element` (lines 238-242): `emit_start_element_initial` then
write `/>`. No frame is popped. -/
def emit_empty_element (s : Emitter) (name : Name)
    (attributes : List Attribute) (nsp : Namespace) : EmitStep :=
  match emit_start_element_initial s name attributes nsp with
  | none => none
  | some (s1, out1, Except.error e) => some (s1, out1, Except.error e)
  | some (s1, out1, Except.ok _) => some (s1, out1 ++ "/>", Except.ok ())

/-- `emit_start_element` (lines 244-256): `emit_start_element_initial`, a
second `check_document_started`, then — wrapped in `before_start_element` /
`after_start_element` — a second write of `<` + qualified name, the
namespace-attribute stub (result discarded, as in the source) and the
attribute stub. `after_start_element` runs regardless of the body's result. -/
def emit_start_element (s : Emitter) (name : Name)
    (attributes : List Attribute) (nsp : Namespace) : EmitStep :=
  match emit_start_element_initial s name attributes nsp with
  | none => none
  | some (s1, out1, Except.error e) => some (s1, out1, Except.error e)
  | some (s1, out1, Except.ok _) =>
    match check_document_started s1 with
    | none => none
    | some (s2, out2, Except.error e) => some (s2, out1 ++ out2, Except.error e)
    | some (s2, out2, Except.ok _) =>
      match before_start_element s2 with
      | none => none
      | some (s3, out3) =>
        match emit_namespace_attributes s3 nsp with
        | none => none
        | some (s4, out5, _) =>
          match emit_attributes s4 attributes with
          | none => none
          | some (s5, out6, r) =>
            match after_start_element s5 with
            | none => none
            | some s6 =>
              some (s6, out1 ++ out2 ++ out3 ++ ("<" ++ name.to_str_proper) ++ out5 ++ out6, r)

/-- `emit_end_element` (lines 266-268): a stub, writes nothing and returns
`Ok(())`. -/
def emit_end_element (s : Emitter) (_name : Name) : EmitStep :=
  some (s, "", Except.ok ())

/-- `emit_cdata` (lines 270-272): a stub, writes nothing and returns
`Ok(())` for every content. -/
def emit_cdata (s : Emitter) (_content : String) : EmitStep :=
  some (s, "", Except.ok ())

/-- `emit_characters` (lines 274-276): a stub, writes nothing and returns
`Ok(())`. -/
def emit_characters (s : Emitter) (_content : String) : EmitStep :=
  some (s, "", Except.ok ())

/-- `emit_whitespace` (lines 278-280): a stub, writes nothing and returns
`Ok(())`. -/
def emit_whitespace (s : Emitter) (_content : String) : EmitStep :=
  some (s, "", Except.ok ())

/-- The default document declaration written by `check_document_started`. -/
def xmlDeclDefault : String := "<?xml version=\"1.0\" encoding=\"utf-8\"?>"

/-- A compact configuration: no document declaration, no pretty-printing. -/
def cfgCompact : EmitterConfig :=
  { line_separator := "\n", indent_string := "  ", perform_indent := false,
    write_document_declaration := false }

/-- The spec's default pretty-printing configuration. -/
def cfgDefault : EmitterConfig :=
  { line_separator := "\n", indent_string := "  ", perform_indent := true,
    write_document_declaration := true }

/-- The element name `a`, unprefixed. -/
def nameA : Name := { pfx := none, local_name := "a" }

/-- An emitter state at nesting depth zero with one root indent frame in state
`nothing` and the document declaration already dealt with: the state the spec
intends right after start-document. -/
def sReady : Emitter :=
  { config := cfgCompact, nst := [], indent_level := 0,
    indent_stack := [WROTE_NOTHING], start_document_emitted := true }

/-- Like `sReady`, but the root frame records that markup was already
written. -/
def sAfterMarkup : Emitter :=
  { config := cfgCompact, nst := [], indent_level := 0,
    indent_stack := [WROTE_MARKUP], start_document_emitted := true }

/-- A state with the default configuration, one root indent frame, and no
document declaration emitted yet. -/
def sFreshRoot : Emitter :=
  { config := cfgDefault, nst := [], indent_level := 0,
    indent_stack := [WROTE_NOTHING], start_document_emitted := false }

/-- On a stack with top flag `f`, `wrote_text` tests the `WROTE_TEXT` bit of
`f`. -/
theorem wrote_text_eq (s : Emitter) (f : Nat) (t : List Nat)
    (h : s.indent_stack = f :: t) :
    wrote_text s = some (decide (0 < (f &&& WROTE_TEXT))) := by
  simp [wrote_text, h]

/-- On a stack with top flag `f`, `wrote_markup` tests the `WROTE_MARKUP` bit
of `f`. -/
theorem wrote_markup_eq (s : Emitter) (f : Nat) (t : List Nat)
    (h : s.indent_stack = f :: t) :
    wrote_markup s = some (decide (0 < (f &&& WROTE_MARKUP))) := by
  simp [wrote_markup, h]

/-- On a non-empty indent stack, `after_markup` sets the top flag to
`WROTE_MARKUP`. -/
theorem after_markup_eq (s : Emitter) (f : Nat) (t : List Nat)
    (h : s.indent_stack = f :: t) :
    after_markup s = some { s with indent_stack := WROTE_MARKUP :: t } := by
  simp [after_markup, set_wrote_markup, h]

/-- On a non-empty indent stack, `before_markup` returns normally, changes at
most the top indent flag, and leaves every other field alone. -/
theorem before_markup_shape (s : Emitter) (f : Nat) (t : List Nat)
    (h : s.indent_stack = f :: t) :
    ∃ f2 o, before_markup s = some ({ s with indent_stack := f2 :: t }, o) := by
  simp only [before_markup, wrote_text_eq s f t h, wrote_markup_eq s f t h]
  split
  · split
    · rw [after_markup_eq s f t h]
      exact ⟨WROTE_MARKUP, write_newline s s.indent_level, rfl⟩
    · exact ⟨f, write_newline s s.indent_level, by rw [← h]⟩
  · exact ⟨f, "", by rw [← h]⟩

/-- On a non-empty indent stack, `before_start_element` returns normally and
pushes a `WROTE_NOTHING` frame. -/
theorem before_start_element_shape (s : Emitter) (f : Nat) (t : List Nat)
    (h : s.indent_stack = f :: t) :
    ∃ f2 o, before_start_element s =
      some ({ s with indent_stack := 0 :: f2 :: t }, o) := by
  obtain ⟨f2, o, hbm⟩ := before_markup_shape s f t h
  exact ⟨f2, o, by simp [before_start_element, hbm]⟩

/-- On a non-empty indent stack, `check_document_started` returns `Ok`,
changes at most the top indent flag and the `start_document_emitted` flag, and
whenever it leaves that flag `false`, auto-declaration is off. -/
theorem check_document_started_shape (s : Emitter) (f : Nat) (t : List Nat)
    (h : s.indent_stack = f :: t) :
    ∃ f2 o b, check_document_started s =
        some ({ s with indent_stack := f2 :: t, start_document_emitted := b },
          o, Except.ok ()) ∧
      (b = false → s.config.write_document_declaration = false) := by
  unfold check_document_started
  split
  · next hc =>
    obtain ⟨f2, o, hbm⟩ :=
      before_markup_shape { s with start_document_emitted := true } f t h
    unfold emit_start_document
    rw [if_neg (by simp [hc.1]), hbm]
    exact ⟨WROTE_MARKUP, o ++ startDocumentBody XmlVersion.Version10 "utf-8" none,
      true, rfl, by simp⟩
  · next hc =>
    refine ⟨f, "", s.start_document_emitted, by rw [← h], ?_⟩
    intro hb
    by_contra hw
    exact hc ⟨by simp [hb], by simpa using hw⟩

/-- C4: once the document start has been emitted (`start_document_emitted` is
set), every further `emit_start_document` call returns the
`DocumentStartAlreadyEmitted` error, writes zero bytes, and leaves the emitter
state unchanged. -/
theorem c4_second_start_document_rejected (s : Emitter) (version : XmlVersion)
    (encoding : String) (standalone : Option Bool)
    (h : s.start_document_emitted = true) :
    emit_start_document s version encoding standalone =
      some (s, "", Except.error
        (error EmitterErrorKind.DocumentStartAlreadyEmitted
          "Document start is already emitted")) := by
  unfold emit_start_document
  rw [if_pos h]

/-- Witness for C4 at a concrete state with the flag set. -/
theorem c4_witness :
    emit_start_document sReady XmlVersion.Version10 "utf-8" none =
      some (sReady, "", Except.error
        (error EmitterErrorKind.DocumentStartAlreadyEmitted
          "Document start is already emitted")) :=
  c4_second_start_document_rejected sReady XmlVersion.Version10 "utf-8" none rfl

/-- C1: refuted on the code as written. From a ready state, a single
`emit_start_element` call writes the byte string `"<a<a"`: the byte `<` and
the qualified name appear twice, no terminating `>` is ever written, and
`check_document_started` is reached twice (once inside
`emit_start_element_initial` and once again afterwards). -/
theorem c1_start_element_writes_tag_twice :
    emit_start_element sReady nameA [] [] =
      some ({ config := cfgCompact, nst := [], indent_level := 1,
              indent_stack := [1, 0, 0], start_document_emitted := true },
        "<a<a", Except.ok ()) := by
  rfl

/-- C2: refuted on the code as written. A successful `emit_empty_element`
pushes an indent frame (inside `before_start_element`) and never pops it: the
indent stack is one deeper after the call than before. -/
theorem c2_empty_element_leaks_indent_frame :
    ∃ s2, emit_empty_element sReady nameA [] [] = some (s2, "<a/>", Except.ok ()) ∧
      s2.indent_stack.length = sReady.indent_stack.length + 1 ∧
      s2.indent_level = sReady.indent_level ∧
      s2.nst.length = sReady.nst.length :=
  ⟨_, rfl, rfl, rfl, rfl⟩

/-- C3: refuted at creation. A freshly created emitter has zero open elements,
yet its indent stack and namespace stack are both empty (depth `0`, not
`0 + 1`); the invariant `depth = open_elements + 1` fails before any event. -/
theorem c3_new_emitter_breaks_depth_invariant :
    (new cfgDefault).indent_level = 0 ∧
    (new cfgDefault).indent_stack.length ≠ (new cfgDefault).indent_level + 1 ∧
    (new cfgDefault).nst.length ≠ (new cfgDefault).indent_level + 1 :=
  ⟨rfl, by decide, by decide⟩

/-- C5: refuted on the code as written. `emit_cdata` is a stub: on the content
`"x]]>y"` (which contains `]]>`) it returns `Ok` and writes zero bytes instead
of failing, and the `EmitterErrorKind` enumeration does not even contain an
`InvalidPayload` variant. -/
theorem c5_cdata_stub_accepts_cdata_end_marker :
    emit_cdata sReady "x]]>y" = some (sReady, "", Except.ok ()) ∧
    ∀ k : EmitterErrorKind,
      k = EmitterErrorKind.IoError ∨
      k = EmitterErrorKind.DocumentStartAlreadyEmitted ∨
      k = EmitterErrorKind.UnexpectedEvent ∨
      k = EmitterErrorKind.InvalidWhitespaceEvent := by
  refine ⟨rfl, ?_⟩
  intro k
  cases k
  · exact Or.inl rfl
  · exact Or.inr (Or.inl rfl)
  · exact Or.inr (Or.inr (Or.inl rfl))
  · exact Or.inr (Or.inr (Or.inr rfl))

/-- `check_document_started` is a no-op when its guard fails. -/
theorem check_document_started_skip (s : Emitter)
    (hc : ¬(¬s.start_document_emitted = true ∧
      s.config.write_document_declaration = true)) :
    check_document_started s = some (s, "", Except.ok ()) := by
  unfold check_document_started
  rw [if_neg hc]

/-- C8: for every markup-emitting event (processing-instruction,
start-element, empty-element), `check_document_started` runs first: when
auto-declaration is configured and the document start has not been emitted, it
writes the default declaration (preceded only by indentation bytes) and sets
`start_document_emitted`; otherwise it writes no bytes at all; and each of the
three events' output extends the `check_document_started` output. -/
theorem c8_declaration_before_first_markup (s : Emitter) (f : Nat) (t : List Nat)
    (h : s.indent_stack = f :: t) (nm : String) (dat : Option String)
    (en : Name) (ats : List Attribute) (nsp : Namespace) :
    (s.config.write_document_declaration = true ∧ s.start_document_emitted = false →
      ∃ s2 nl, check_document_started s = some (s2, nl ++ xmlDeclDefault, Except.ok ()) ∧
        s2.start_document_emitted = true) ∧
    (s.config.write_document_declaration = false ∨ s.start_document_emitted = true →
      check_document_started s = some (s, "", Except.ok ())) ∧
    (∀ s1 out1, check_document_started s = some (s1, out1, Except.ok ()) →
      (∃ s2 rest, emit_processing_instruction s nm dat =
        some (s2, out1 ++ rest, Except.ok ())) ∧
      (∃ s2 rest, emit_start_element s en ats nsp =
        some (s2, out1 ++ rest, Except.ok ())) ∧
      (∃ s2 rest, emit_empty_element s en ats nsp =
        some (s2, out1 ++ rest, Except.ok ()))) := by
  refine ⟨?_, ?_, ?_⟩
  · rintro ⟨hw, he⟩
    obtain ⟨f2, o, hbm⟩ :=
      before_markup_shape { s with start_document_emitted := true } f t h
    unfold check_document_started
    rw [if_pos ⟨by simp [he], hw⟩]
    unfold emit_start_document
    rw [if_neg (by simp [he]), hbm]
    exact ⟨_, o, rfl, rfl⟩
  · intro hor
    exact check_document_started_skip s (by rcases hor with h1 | h1 <;> simp [h1])
  · intro s1 out1 hch
    obtain ⟨f2, o, b, hcheck, hb⟩ := check_document_started_shape s f t h
    rw [hch] at hcheck
    simp only [Option.some.injEq, Prod.mk.injEq, and_true] at hcheck
    obtain ⟨rfl, rfl⟩ := hcheck
    cases b
    · -- auto-declaration is off here: the flag stays false only when
      -- `write_document_declaration` is false
      have hwdd : s.config.write_document_declaration = false := hb rfl
      have hskip : ∀ u : Emitter, u.config.write_document_declaration = false →
          check_document_started u = some (u, "", Except.ok ()) := by
        intro u hu
        apply check_document_started_skip
        rintro ⟨-, hwd⟩
        rw [hu] at hwd
        exact Bool.false_ne_true hwd
      obtain ⟨f3, o2, hbm2⟩ := before_markup_shape
        { s with indent_stack := f2 :: t, start_document_emitted := false } f2 t rfl
      obtain ⟨f3b, o2b, hbse⟩ := before_start_element_shape
        { s with indent_stack := f2 :: t, start_document_emitted := false } f2 t rfl
      obtain ⟨f4, o3, hbse2⟩ := before_start_element_shape
        { s with indent_stack := 0 :: f3b :: t, start_document_emitted := false }
        0 (f3b :: t) rfl
      refine ⟨?_, ?_, ?_⟩
      · simp only [emit_processing_instruction, hch, hbm2, after_markup,
          set_wrote_markup, String.append_assoc]
        exact ⟨_, _, rfl⟩
      · simp only [emit_start_element, emit_start_element_initial, hch, hbse,
          emit_namespace_attributes, emit_attributes, hskip, hwdd, hbse2,
          after_start_element, after_markup, set_wrote_markup, Option.map,
          String.append_assoc]
        exact ⟨_, _, rfl⟩
      · simp only [emit_empty_element, emit_start_element_initial, hch, hbse,
          emit_namespace_attributes, emit_attributes, String.append_assoc]
        exact ⟨_, _, rfl⟩
    · -- the flag is set: the second `check_document_started` always skips
      have hskip : ∀ u : Emitter, u.start_document_emitted = true →
          check_document_started u = some (u, "", Except.ok ()) := by
        intro u hu
        apply check_document_started_skip
        rintro ⟨hne, -⟩
        exact hne hu
      obtain ⟨f3, o2, hbm2⟩ := before_markup_shape
        { s with indent_stack := f2 :: t, start_document_emitted := true } f2 t rfl
      obtain ⟨f3b, o2b, hbse⟩ := before_start_element_shape
        { s with indent_stack := f2 :: t, start_document_emitted := true } f2 t rfl
      obtain ⟨f4, o3, hbse2⟩ := before_start_element_shape
        { s with indent_stack := 0 :: f3b :: t, start_document_emitted := true }
        0 (f3b :: t) rfl
      refine ⟨?_, ?_, ?_⟩
      · simp only [emit_processing_instruction, hch, hbm2, after_markup,
          set_wrote_markup, String.append_assoc]
        exact ⟨_, _, rfl⟩
      · simp only [emit_start_element, emit_start_element_initial, hch, hbse,
          emit_namespace_attributes, emit_attributes, hskip, hbse2,
          after_start_element, after_markup, set_wrote_markup, Option.map,
          String.append_assoc]
        exact ⟨_, _, rfl⟩
      · simp only [emit_empty_element, emit_start_element_initial, hch, hbse,
          emit_namespace_attributes, emit_attributes, String.append_assoc]
        exact ⟨_, _, rfl⟩

/-- Witness for C8 at a concrete fresh-root state: the declaration is written
with no preceding bytes and the flag is set. -/
theorem c8_witness :
    ∃ s2 nl, check_document_started sFreshRoot =
      some (s2, nl ++ xmlDeclDefault, Except.ok ()) ∧
      s2.start_document_emitted = true :=
  (c8_declaration_before_first_markup sFreshRoot WROTE_NOTHING [] rfl "p" none
    nameA [] []).1 ⟨rfl, rfl⟩

/-- C6: before emitting markup, a current frame in state `text` suppresses the
line separator and indent entirely, while a current frame in state `markup` —
or in state `nothing` at indent level greater than zero — produces exactly one
`line_separator` followed by `indent_level` copies of `indent_string`. -/
theorem c6_before_markup_indentation (s : Emitter) (f : Nat) (t : List Nat)
    (h : s.indent_stack = f :: t) :
    (f = WROTE_TEXT → ∃ s2, before_markup s = some (s2, "")) ∧
    (f = WROTE_MARKUP ∨ (f = WROTE_NOTHING ∧ 0 < s.indent_level) →
      ∃ s2, before_markup s = some (s2,
        s.config.line_separator ++
          String.join (List.replicate s.indent_level s.config.indent_string))) := by
  constructor
  · rintro rfl
    have hwt : wrote_text s = some true := by rw [wrote_text_eq s WROTE_TEXT t h]; rfl
    have hwm : wrote_markup s = some false := by rw [wrote_markup_eq s WROTE_TEXT t h]; rfl
    simp only [before_markup, hwt, hwm]
    rw [if_neg (by simp)]
    exact ⟨s, rfl⟩
  · rintro (rfl | ⟨rfl, hl⟩)
    · have hwt : wrote_text s = some false := by rw [wrote_text_eq s WROTE_MARKUP t h]; rfl
      have hwm : wrote_markup s = some true := by rw [wrote_markup_eq s WROTE_MARKUP t h]; rfl
      simp only [before_markup, hwt, hwm]
      rw [if_pos (by simp)]
      split
      · rw [after_markup_eq s WROTE_MARKUP t h]
        exact ⟨_, rfl⟩
      · exact ⟨s, rfl⟩
    · have hwt : wrote_text s = some false := by rw [wrote_text_eq s WROTE_NOTHING t h]; rfl
      have hwm : wrote_markup s = some false := by rw [wrote_markup_eq s WROTE_NOTHING t h]; rfl
      simp only [before_markup, hwt, hwm]
      rw [if_pos ⟨by simp, Or.inl hl⟩]
      split
      · rw [after_markup_eq s WROTE_NOTHING t h]
        exact ⟨_, rfl⟩
      · exact ⟨s, rfl⟩

/-- Witness for C6 at a concrete state whose current frame is in state
`text`: no newline or indent bytes precede the markup. -/
theorem c6_witness :
    ∃ s2, before_markup
      { config := cfgCompact, nst := [], indent_level := 0,
        indent_stack := [WROTE_TEXT], start_document_emitted := true } = some (s2, "") :=
  (c6_before_markup_indentation _ WROTE_TEXT [] rfl).1 rfl

/-- C7: before emitting an end-tag, a current frame in state `markup` with at
least one open element produces exactly one `line_separator` followed by
`indent_level - 1` copies of `indent_string`, while a frame in state `text` or
`nothing` produces no bytes at all; the state is unchanged either way. -/
theorem c7_before_end_element_indentation (s : Emitter) (f : Nat) (t : List Nat)
    (h : s.indent_stack = f :: t) :
    (f = WROTE_MARKUP ∧ 0 < s.indent_level →
      before_end_element s = some (s,
        s.config.line_separator ++
          String.join (List.replicate (s.indent_level - 1) s.config.indent_string))) ∧
    (f = WROTE_TEXT ∨ f = WROTE_NOTHING → before_end_element s = some (s, "")) := by
  constructor
  · rintro ⟨rfl, hl⟩
    have hwm : wrote_markup s = some true := by rw [wrote_markup_eq s WROTE_MARKUP t h]; rfl
    have hwt : wrote_text s = some false := by rw [wrote_text_eq s WROTE_MARKUP t h]; rfl
    unfold before_end_element
    rw [if_pos hl]
    simp only [hwm, hwt]
    rw [if_pos (by simp)]
    rfl
  · rintro (rfl | rfl)
    · have hwm : wrote_markup s = some false := by rw [wrote_markup_eq s WROTE_TEXT t h]; rfl
      have hwt : wrote_text s = some true := by rw [wrote_text_eq s WROTE_TEXT t h]; rfl
      unfold before_end_element
      split
      · simp only [hwm, hwt]
        rw [if_neg (by simp)]
      · rfl
    · have hwm : wrote_markup s = some false := by rw [wrote_markup_eq s WROTE_NOTHING t h]; rfl
      have hwt : wrote_text s = some false := by rw [wrote_text_eq s WROTE_NOTHING t h]; rfl
      unfold before_end_element
      split
      · simp only [hwm, hwt]
        rw [if_neg (by simp)]
      · rfl

/-- Witness for C7 at a concrete state whose current frame is in state
`markup` with one open element: one newline and zero indents
(`indent_level - 1 = 0`) are written. -/
theorem c7_witness :
    before_end_element
      { config := cfgCompact, nst := [], indent_level := 1,
        indent_stack := [WROTE_MARKUP, WROTE_NOTHING], start_document_emitted := true } =
      some ({ config := cfgCompact, nst := [], indent_level := 1,
              indent_stack := [WROTE_MARKUP, WROTE_NOTHING],
              start_document_emitted := true },
        "\n") := by
  have := (c7_before_end_element_indentation
    { config := cfgCompact, nst := [], indent_level := 1,
      indent_stack := [WROTE_MARKUP, WROTE_NOTHING], start_document_emitted := true }
    WROTE_MARKUP [WROTE_NOTHING] rfl).1 ⟨rfl, by decide⟩
  simpa using this

/-- C9: refuted on the code as written. The emitter never consults
`perform_indent`: from a state whose current frame is `markup`, with
`perform_indent = false` and `line_separator = "\n"`, a processing-instruction
event still writes the line separator to the sink. -/
theorem c9_newline_written_despite_perform_indent_off :
    sAfterMarkup.config.perform_indent = false ∧
    sAfterMarkup.config.line_separator = "\n" ∧
    emit_processing_instruction sAfterMarkup "p" none =
      some (sAfterMarkup, "\n<?p?>", Except.ok ()) :=
  ⟨rfl, rfl, rfl⟩

/-- C10: refuted on the code as written. A freshly created emitter has an
empty indent stack, so the `indent_stack.last().unwrap()` inside the frame
accessors panics on the very first event: both `emit_start_document` and
`emit_start_element` panic (modelled as `none`) on a fresh emitter. -/
theorem c10_fresh_emitter_unwrap_panics :
    (new cfgDefault).indent_stack = [] ∧
    wrote_text (new cfgDefault) = none ∧
    emit_start_document (new cfgDefault) XmlVersion.Version10 "utf-8" none = none ∧
    emit_start_element (new cfgDefault) nameA [] [] = none :=
  ⟨rfl, rfl, rfl, rfl⟩

end Xml
